import Mathlib

/-!
Verification development for the Silex repository excerpt.

Shallow embedding of:
- the client flux store (`src/src/client/flux/store.ts`): `subscribeToCrud`
  change detection against the module-level `prevState` tracker;
- the server backend registry (`src/src/ts/server/backends/index.ts`):
  `getBackend`, `toBackendData`, `routeLoginStatus`, `routeLogout`;
- the shared API types (`src/unnamed/part_001`): `JobStatus`, `JobData`,
  `PublicationJobData`;
- the parts of the repository referenced only by the files above (the
  `withCrud` entity store, the publication job table, `requiredParam`):
  these are modelled from the spec, each marked in its doc comment.

JavaScript reference identity (`!==` on arrays/objects) is modelled by
tagging each state slice with a `ref : Nat` identity; two slices are the
"same reference" exactly when their `ref` fields coincide.
-/

/-! ## Client flux store (`src/src/client/flux/store.ts`) -/

/-- A redux state slice (an array value) together with its JavaScript
reference identity: `ref` stands for the object reference, `data` for the
array contents. `state[name] !== prevState[name]` is `ref` inequality. -/
structure Slice where
  ref : Nat
  data : List String
  deriving DecidableEq, Repr

/-- The shape of the root redux state in `store.ts`:
`{ pages, elements, site, ui }`. Each slice carries its reference tag. -/
structure StoreState where
  pages : Slice
  elements : Slice
  site : Slice
  ui : Slice
  deriving DecidableEq, Repr

/-- The collection names usable with `subscribeToCrud(name, cbk)` /
`subscribeTo(name, cbk)`: the keys of the root state object. -/
inductive SliceName where
  | pages
  | elements
  | site
  | ui
  deriving DecidableEq, Repr

/-- Dynamic property access `state[name]` on the root state. -/
def getSlice (s : StoreState) : SliceName → Slice
  | .pages => s.pages
  | .elements => s.elements
  | .site => s.site
  | .ui => s.ui

/-- The module-level mutable variables of `store.ts`:
`let prevState: State` and `let curState: State`, both `undefined` until
the tracking subscriber (registered at module load, hence first in redux's
listener order) runs. -/
structure ModuleVars where
  prevState : Option StoreState
  curState : Option StoreState
  deriving DecidableEq, Repr

/-- Fresh module state right after `store.ts` is evaluated: both tracker
variables are still `undefined` (redux's INIT dispatch happens inside
`createStore`, before any listener is registered). -/
def initialVars : ModuleVars := ⟨none, none⟩

/-- One committed dispatch, observed by the listeners in registration
order: first the module-level tracking subscriber
(`prevState = curState; curState = store.getState()`), then a
`subscribeToCrud(watched, cbk)` listener. Returns the updated tracker
variables and the list of calls made to `cbk` during this dispatch, each
call carrying `(prevState ? prevState[name] : null, state[name])`.
The listener body is
`if (!prevState || state[name] !== prevState[name]) cbk(...)`. -/
def dispatchStep (vars : ModuleVars) (newState : StoreState) (watched : SliceName) :
    ModuleVars × List (Option Slice × Slice) :=
  let vars' : ModuleVars := ⟨vars.curState, some newState⟩
  let calls : List (Option Slice × Slice) :=
    match vars'.prevState with
    | none => [(none, getSlice newState watched)]
    | some p =>
      if (getSlice newState watched).ref ≠ (getSlice p watched).ref then
        [(some (getSlice p watched), getSlice newState watched)]
      else
        []
  (vars', calls)

example :
    (dispatchStep ⟨some ⟨⟨0, []⟩, ⟨1, []⟩, ⟨2, []⟩, ⟨3, []⟩⟩,
      some ⟨⟨0, []⟩, ⟨1, []⟩, ⟨2, []⟩, ⟨3, []⟩⟩⟩
      ⟨⟨0, []⟩, ⟨9, ["e"]⟩, ⟨2, []⟩, ⟨3, []⟩⟩ .pages).2 = [] := by decide

example :
    (dispatchStep initialVars
      ⟨⟨0, []⟩, ⟨9, ["e"]⟩, ⟨2, []⟩, ⟨3, []⟩⟩ .pages).2 =
      [(none, ⟨0, []⟩)] := by decide

/-! ## Shared API types (`src/unnamed/part_001`) -/

/-- `enum BackendType { STORAGE = 'STORAGE', HOSTING = 'HOSTING' }`. -/
inductive BackendType where
  | STORAGE
  | HOSTING
  deriving DecidableEq, Repr

/-- `enum JobStatus { IN_PROGRESS, SUCCESS, ERROR }`. -/
inductive JobStatus where
  | IN_PROGRESS
  | SUCCESS
  | ERROR
  deriving DecidableEq, Repr

/-- `interface JobData { jobId, status, message, url?, _timeout? }`.
The optional `_timeout` field ("Internal use") is a Node timer handle,
modelled as an optional number. -/
structure JobData where
  jobId : String
  status : JobStatus
  message : String
  url : Option String
  _timeout : Option Nat
  deriving DecidableEq, Repr

/-- `interface PublicationJobData extends JobData { logs: string[][],
errors: string[][] }`. -/
structure PublicationJobData extends JobData where
  logs : List (List String)
  errors : List (List String)
  deriving DecidableEq, Repr

/-- `interface BackendUser { name, email?, picture?, metadata? }`; the
opaque `metadata?: object` is modelled as an optional string. -/
structure BackendUser where
  name : String
  email : Option String
  picture : Option String
  metadata : Option String
  deriving DecidableEq, Repr

/-- `interface WebsiteMeta { websiteId, createdAt, updatedAt, metadata? }`;
`Date` is modelled as a number (epoch), `metadata?: object` as an optional
string. -/
structure WebsiteMeta where
  websiteId : String
  createdAt : Nat
  updatedAt : Nat
  metadata : Option String
  deriving DecidableEq, Repr

/-- `interface BackendData` — the backend descriptor sent to the front
end by `toBackendData`. -/
structure BackendData where
  backendId : String
  type : BackendType
  displayName : String
  icon : String
  disableLogout : Bool
  isLoggedIn : Bool
  authUrl : Option String
  deriving DecidableEq, Repr

/-! ## Server backend registry (`src/src/ts/server/backends/index.ts`) -/

/-- Sessions are opaque to the server core (`BackendSession = any`); the
embedding fixes an opaque carrier. Backends consume a session only through
their own operations. -/
def Session := String

/-- A JavaScript `Error`, possibly carrying a numeric `code` property (the
routes read `error?.code`). -/
structure JsError where
  code : Option Nat
  message : String
  deriving DecidableEq, Repr

/-- A configured backend instance. The TS `Backend` interface: static
fields `id`, `displayName`, `icon`, `disableLogout?`, `type`, plus
session-consuming operations, modelled as pure functions of the session.
Only the operations the embedded routes call are included. -/
structure Backend where
  id : String
  displayName : String
  icon : String
  disableLogout : Option Bool
  type : BackendType
  isLoggedIn : Session → Bool
  getAuthorizeURL : Session → Option String
  getUserData : Session → BackendUser
  getSiteMeta : Session → String → WebsiteMeta
  logout : Session → Except JsError Unit

/-- JavaScript truthiness of an optional string parameter: `undefined`
and the empty string are falsy. -/
def jsTruthyStr (s : Option String) : Bool :=
  match s with
  | none => false
  | some v => v ≠ ""

/-- JavaScript `!!x` for an optional boolean (`!!backend.disableLogout`). -/
def jsDoubleBang (b : Option Bool) : Bool :=
  match b with
  | none => false
  | some v => v

/-- The server configuration holding the registered backend instances
(never destroyed during process lifetime). -/
structure ServerConfig where
  backends : List Backend

/-- Modelled from the spec: `ServerConfig.getBackends(type)` is not under
`src/`; per spec §4.3 / §9 the registry maps a type to the ordered list of
implementations of that type, so it is the type-filter over the registered
list, preserving registration order. -/
def getBackends (config : ServerConfig) (type : BackendType) : List Backend :=
  config.backends.filter (fun b => b.type == type)

/-- `String.prototype.toUpperCase()` (ASCII), character by character. -/
def jsToUpperCase (s : String) : String :=
  ⟨s.data.map Char.toUpper⟩

/-- `toBackendEnum(type)`: `BackendType[type.toUpperCase()]`, which is
`undefined` for an unknown string. -/
def toBackendEnum (type : String) : Option BackendType :=
  if jsToUpperCase type == "STORAGE" then some .STORAGE
  else if jsToUpperCase type == "HOSTING" then some .HOSTING
  else none

/-- `getBackend(config, session, type, backendId?)`: if `backendId` is
truthy, `backends.find(s => s.id === backendId && s.type === type)`;
otherwise the first backend whose `isLoggedIn(session)` resolves true;
otherwise `backends[0]`. -/
def getBackend (config : ServerConfig) (session : Session) (type : BackendType)
    (backendId : Option String) : Option Backend :=
  let backends := getBackends config type
  if jsTruthyStr backendId then
    backends.find? (fun s => s.id == backendId.getD "" && s.type == type)
  else
    match backends.find? (fun b => b.isLoggedIn session) with
    | some backend => some backend
    | none => backends.head?

/-- `toBackendData(session, backend)`: builds the `BackendData` descriptor
from the backend's static fields plus `isLoggedIn(session)` and
`getAuthorizeURL(session)`. -/
def toBackendData (session : Session) (backend : Backend) : BackendData :=
  { backendId := backend.id
    type := backend.type
    displayName := backend.displayName
    icon := backend.icon
    disableLogout := jsDoubleBang backend.disableLogout
    isLoggedIn := backend.isLoggedIn session
    authUrl := backend.getAuthorizeURL session }

/-! ## Express routes (`src/src/ts/server/backends/index.ts`) -/

/-- Modelled from the spec: `requiredParam` (src/ts/server/utils/validation)
is not under `src/`. Per spec §7, a missing required parameter raises
`ValidationError`, "always a client-caused 400"; the raised error carries
code 400 and a human-readable message naming the parameter. A present
value is returned unchanged. -/
def requiredParam {α : Type} (value : Option α) (name : String) : Except JsError α :=
  match value with
  | some v => Except.ok v
  | none => Except.error ⟨some 400, "Missing required parameter: " ++ name⟩

/-- `ApiBackendLoginStatusRequestQuery = { id?, backendId?, type }`. -/
structure LoginStatusQuery where
  id : Option String
  backendId : Option String
  type : BackendType

/-- The parts of the express request read by `routeLoginStatus`:
`req.app.get('config')`, `req.query`, `req['session']` — each may be
absent and is then rejected by `requiredParam`. -/
structure LoginStatusReq where
  config : Option ServerConfig
  query : Option LoginStatusQuery
  session : Option Session

/-- `ApiBackendLoginStatusResponse = { user, backend, websiteMeta? }`.
`websiteMeta` is the truthy value of
`websiteId && backend.type === STORAGE && getSiteMeta(...)` (falsy
results — `undefined`, `''`, `false` — are modelled as `none`). -/
structure LoginStatusResponse where
  backend : BackendData
  user : BackendUser
  websiteMeta : Option WebsiteMeta

/-- An HTTP response body of the login-status route: either the JSON
success payload or an `ApiResponseError`-style `{ error: true, message }`. -/
inductive LoginStatusBody where
  | ok (r : LoginStatusResponse)
  | err (message : String)

/-- The validation prefix of `routeLoginStatus`: the three `requiredParam`
calls, sequenced as in the route (the first throw wins, as in the TS
`try` block). -/
def routeLoginStatusChecked (req : LoginStatusReq) :
    Except JsError (ServerConfig × LoginStatusQuery × Session) :=
  match requiredParam req.config "Config object on express js APP" with
  | Except.error e => Except.error e
  | Except.ok config =>
    match requiredParam req.query "Query object" with
    | Except.error e => Except.error e
    | Except.ok query =>
      match requiredParam req.session "Session object" with
      | Except.error e => Except.error e
      | Except.ok session => Except.ok (config, query, session)

/-- `routeLoginStatus(req, res)`, as the pair (HTTP status, body):
validates config/query/session with `requiredParam` (caught by the outer
`catch` as `error?.code ?? 500`), resolves the backend (500 "No backend
found" if none), rejects a not-logged-in session with 401, and otherwise
responds 200 with backend data, user data, and — only for a truthy
`query.id` on a STORAGE backend — the site's `websiteMeta`. -/
def routeLoginStatus (req : LoginStatusReq) : Nat × LoginStatusBody :=
  match routeLoginStatusChecked req with
  | Except.error e => (e.code.getD 500, .err e.message)
  | Except.ok (config, query, session) =>
    match getBackend config session query.type query.backendId with
    | none => (500, .err "No backend found")
    | some backend =>
      if backend.isLoggedIn session then
        (200, .ok ⟨toBackendData session backend, backend.getUserData session,
          if jsTruthyStr query.id && (backend.type == BackendType.STORAGE) then
            some (backend.getSiteMeta session (query.id.getD ""))
          else none⟩)
      else
        (401, .err "Not logged in")

/-- `ApiBackendLogoutRequestQuery = { backendId, type }`; at runtime each
field may still be missing (the route re-validates with `requiredParam`),
and `type` arrives as a raw string fed to `toBackendEnum`. -/
structure LogoutQuery where
  backendId : Option String
  type : Option String

/-- The parts of the express request read by `routeLogout`. `req.query`
and `req['session']` are used without a `requiredParam` check. -/
structure LogoutReq where
  config : Option ServerConfig
  query : LogoutQuery
  session : Session

/-- An HTTP response body of the logout route: the success payload is
`{ error: false, message: 'OK' }`. -/
inductive LogoutBody where
  | ok (message : String)
  | err (message : String)

/-- The validation prefix of `routeLogout`: the three `requiredParam`
calls, sequenced as in the route. -/
def routeLogoutChecked (req : LogoutReq) :
    Except JsError (String × ServerConfig × String) :=
  match requiredParam req.query.backendId "Backend id" with
  | Except.error e => Except.error e
  | Except.ok backendId =>
    match requiredParam req.config "Config object on express js APP" with
    | Except.error e => Except.error e
    | Except.ok config =>
      match requiredParam req.query.type "Backend type" with
      | Except.error e => Except.error e
      | Except.ok typeStr => Except.ok (backendId, config, typeStr)

/-- `getBackend(config, req['session'], toBackendEnum(type), backendId)`
as called by `routeLogout`: an unknown `type` string makes `toBackendEnum`
return `undefined`, which matches no registered backend. -/
def resolveLogoutBackend (config : ServerConfig) (session : Session)
    (typeStr backendId : String) : Option Backend :=
  match toBackendEnum typeStr with
  | some type => getBackend config session type (some backendId)
  | none => none

/-- String interpolation `${type}` of the (possibly undefined) backend
type enum value in the "Backend not found" message. -/
def showBackendTypeOpt : Option BackendType → String
  | some .STORAGE => "STORAGE"
  | some .HOSTING => "HOSTING"
  | none => "undefined"

/-- The outer `try` block of `routeLogout`: a missing backend throws a
plain `Error` ("Backend not found ...", no `code`); a failing
`backend.logout` is answered by the inner catch with `error?.code ?? 500`;
success responds 200 `'OK'`. -/
def routeLogoutAttempt (req : LogoutReq) : Except JsError (Nat × LogoutBody) :=
  match routeLogoutChecked req with
  | Except.error e => Except.error e
  | Except.ok (backendId, config, typeStr) =>
    match resolveLogoutBackend config req.session typeStr backendId with
    | none =>
      Except.error ⟨none, "Backend not found " ++ backendId ++ " " ++
        showBackendTypeOpt (toBackendEnum typeStr)⟩
    | some backend =>
      match backend.logout req.session with
      | Except.ok _ => Except.ok (200, .ok "OK")
      | Except.error e =>
        Except.ok (e.code.getD 500, .err ("Error while logging out: " ++ e.message))

/-- `routeLogout(req, res)`, as the pair (HTTP status, body): the outer
catch answers any uncaught error with `error?.code ?? 400`. -/
def routeLogout (req : LogoutReq) : Nat × LogoutBody :=
  match routeLogoutAttempt req with
  | Except.ok r => r
  | Except.error e => (e.code.getD 400, .err ("Error in the logout request: " ++ e.message))

/-! ## Entity store (`withCrud`, configured in `src/src/client/flux/store.ts`) -/

/-- Store-level synchronous errors of the entity store (spec §7). -/
inductive CrudError where
  | DuplicateIdError
  | NotFoundError
  deriving DecidableEq, Repr

/-- An entity of a crud collection: a record with a unique string `id`
plus payload (one representative field). -/
structure Entity where
  id : String
  name : String
  deriving DecidableEq, Repr

/-- Concatenation of all ids of a collection (helper for the fresh-id
generator, see `freshId`). -/
def concatIds : List String → String
  | [] => ""
  | i :: rest => i ++ concatIds rest

/-- Modelled from the spec: the fresh-id generator of the `withCrud`
entity store (crud-store.ts, not under `src/`). Spec §4.1 only requires
that "a fresh unique id is generated"; this deterministic generator
returns a string strictly longer than every existing id, hence distinct
from all of them (proved in `freshId_not_mem`). -/
def freshId (ids : List String) : String :=
  concatIds ids ++ "x"

/-- The per-collection options object passed to `withCrud` in `store.ts`
(`actionEnum` and `reducer` are client wiring, not part of the crud
contract; `label` and `allowSetId` are the configuration data). -/
structure CrudOptions where
  label : String
  allowSetId : Bool
  deriving DecidableEq, Repr

/-- `store.ts`: `withCrud<PageData>({ ..., label: 'Pages', allowSetId: true })`. -/
def pagesCrudOptions : CrudOptions := ⟨"Pages", true⟩

/-- `store.ts`: `withCrud<ElementData>({ ..., label: 'Elements', allowSetId: false })`. -/
def elementsCrudOptions : CrudOptions := ⟨"Elements", false⟩

/-- Modelled from the spec: `create(entity, allowCallerSuppliedId)` of the
`withCrud` entity store (crud-store.ts, not under `src/`). Spec §4.1: if
the flag is false, any caller-supplied id is ignored and a fresh unique id
is generated; if true and the id is already present, the call fails with
`DuplicateIdError`; the stored entity is appended to the end of the
ordered sequence and returned. -/
def create (col : List Entity) (e : Entity) (allowSetId : Bool) :
    Except CrudError (Entity × List Entity) :=
  if allowSetId then
    if (col.map Entity.id).contains e.id then
      Except.error CrudError.DuplicateIdError
    else
      Except.ok (e, col ++ [e])
  else
    let stored : Entity := { e with id := freshId (col.map Entity.id) }
    Except.ok (stored, col ++ [stored])

/-! ## Publication job table and orchestrator (spec §4.4, §6, §9) -/

/-- A fresh publication job as accepted by the orchestrator: status
`IN_PROGRESS`, no url, no logs, no errors yet. -/
def startJob (jobId : String) (message : String) : PublicationJobData :=
  ⟨⟨jobId, JobStatus.IN_PROGRESS, message, none, none⟩, [], []⟩

/-- A job status is terminal when it is `SUCCESS` or `ERROR` (spec §4.4:
`CREATED → IN_PROGRESS → {SUCCESS, ERROR}` (terminal)). -/
def jobTerminal (s : JobStatus) : Bool :=
  s ≠ JobStatus.IN_PROGRESS

/-- Modelled from the spec: the elementary updates the publication
orchestrator (not under `src/`) applies to the job it drives — append a
step's log-line group, fail a step (append its error group, set `ERROR`),
or finish (`SUCCESS`, set message and url). Terminal states are terminal:
an update never changes a job whose status is `SUCCESS` or `ERROR`. -/
inductive OrchEvent where
  | stepLogs (lines : List String)
  | stepFail (message : String)
  | stepSuccess (message : String) (url : String)
  deriving DecidableEq, Repr

/-- Apply one orchestrator update to a job (no-op on a terminal job). -/
def applyEvent (j : PublicationJobData) (e : OrchEvent) : PublicationJobData :=
  if jobTerminal j.status then j
  else
    match e with
    | .stepLogs lines => { j with logs := j.logs ++ [lines] }
    | .stepFail message =>
      { j with status := JobStatus.ERROR, message := message,
               errors := j.errors ++ [[message]] }
    | .stepSuccess message url =>
      { j with status := JobStatus.SUCCESS, message := message, url := some url }

/-- Apply a sequence of orchestrator updates in order. -/
def applyEvents (j : PublicationJobData) (es : List OrchEvent) : PublicationJobData :=
  es.foldl applyEvent j

/-- Modelled from the spec: the sequential publish pipeline (spec §4.4
rule 2–3; orchestrator source not under `src/`): the write step either
appends its per-file progress to `logs` or fails the job; only if it
succeeded does the hosting `publish` step run, either failing the job or
completing it with `SUCCESS` and the published url. -/
def runPipeline (j : PublicationJobData) (writeResult : Except String (List String))
    (publishResult : Except String String) : PublicationJobData :=
  match writeResult with
  | Except.error message => applyEvent j (.stepFail message)
  | Except.ok lines =>
    let j1 := applyEvent j (.stepLogs lines)
    match publishResult with
    | Except.error message => applyEvent j1 (.stepFail message)
    | Except.ok url => applyEvent j1 (.stepSuccess "Publication success" url)

/-- Modelled from the spec: the polling endpoint "performs a pure read of
job-table state" (spec §9); it returns the job table unchanged together
with the snapshot of the requested job, if present. -/
def pollJob (jobs : List PublicationJobData) (jobId : String) :
    List PublicationJobData × Option PublicationJobData :=
  (jobs, jobs.find? (fun j => j.jobId == jobId))

/-- An entry of the job table: the job plus its expiry deadline, fixed at
creation (spec §4.4 rule 4). -/
structure JobEntry where
  data : PublicationJobData
  expiresAt : Nat
  deriving DecidableEq, Repr

/-- Job-lookup failure (spec §7: unknown job id — `NotFoundError`). -/
inductive JobError where
  | NotFoundError
  deriving DecidableEq, Repr

/-- Modelled from the spec: job creation stores the job with expiry
deadline `now + ttl`, fixed at creation (orchestrator source not under
`src/`). -/
def createJob (entries : List JobEntry) (now ttl : Nat) (data : PublicationJobData) :
    List JobEntry :=
  entries ++ [⟨data, now + ttl⟩]

/-- Modelled from the spec: the expiry sweep evicts — regardless of
status — every job whose deadline has passed (spec §4.4 rule 4, §9). -/
def sweepJobs (entries : List JobEntry) (now : Nat) : List JobEntry :=
  entries.filter (fun e => decide (now ≤ e.expiresAt))

/-- Modelled from the spec: querying a job id at time `now` sees only the
entries surviving the expiry sweep; an absent (never-created or evicted)
id fails with `NotFoundError`. -/
def getJobAt (entries : List JobEntry) (now : Nat) (jobId : String) :
    Except JobError PublicationJobData :=
  match (sweepJobs entries now).find? (fun e => e.data.jobId == jobId) with
  | some e => Except.ok e.data
  | none => Except.error JobError.NotFoundError

/-! ## Concrete fixtures used by witnesses -/

/-- A sample backend user. -/
def sampleUser : BackendUser := ⟨"user", none, none, none⟩

/-- A sample website meta record. -/
def sampleMeta : WebsiteMeta := ⟨"w1", 0, 0, none⟩

/-- A concrete backend with a constant login state. -/
def mkBackend (id : String) (type : BackendType) (logged : Bool) : Backend :=
  { id := id
    displayName := "Backend " ++ id
    icon := "icon.svg"
    disableLogout := none
    type := type
    isLoggedIn := fun _ => logged
    getAuthorizeURL := fun _ => some ("https://auth/" ++ id)
    getUserData := fun _ => sampleUser
    getSiteMeta := fun _ _ => sampleMeta
    logout := fun _ => Except.ok () }

/-- Two registered storage backends, none logged in. -/
def sampleStorageConfig : ServerConfig :=
  ⟨[mkBackend "a" BackendType.STORAGE false, mkBackend "b" BackendType.STORAGE false]⟩

/-- One registered hosting backend, logged in. -/
def sampleHostingConfig : ServerConfig :=
  ⟨[mkBackend "h" BackendType.HOSTING true]⟩

/-! ## C1 — no cross-slice notification -/

/-- C1 counterexample: the claim fails on the very first committed
dispatch after `store.ts` is loaded. With the store's pre-dispatch state
`s0 = ⟨pages ref 0, elements ref 1, site ref 2, ui ref 3⟩` and a first
dispatch committing `s1` that keeps the `pages`, `site` and `ui`
references and changes only `elements`, the `subscribeToCrud('pages')`
callback IS invoked (with `prev = null`), because the module-level
`prevState` is still `undefined` and the listener guard is
`!prevState || ...`. -/
theorem c1_first_dispatch_fires_counterexample :
    (⟨⟨0, []⟩, ⟨4, ["e"]⟩, ⟨2, []⟩, ⟨3, []⟩⟩ : StoreState).pages =
      (⟨⟨0, []⟩, ⟨1, []⟩, ⟨2, []⟩, ⟨3, []⟩⟩ : StoreState).pages ∧
    (⟨⟨0, []⟩, ⟨4, ["e"]⟩, ⟨2, []⟩, ⟨3, []⟩⟩ : StoreState).site =
      (⟨⟨0, []⟩, ⟨1, []⟩, ⟨2, []⟩, ⟨3, []⟩⟩ : StoreState).site ∧
    (⟨⟨0, []⟩, ⟨4, ["e"]⟩, ⟨2, []⟩, ⟨3, []⟩⟩ : StoreState).ui =
      (⟨⟨0, []⟩, ⟨1, []⟩, ⟨2, []⟩, ⟨3, []⟩⟩ : StoreState).ui ∧
    (⟨⟨0, []⟩, ⟨4, ["e"]⟩, ⟨2, []⟩, ⟨3, []⟩⟩ : StoreState).elements.ref ≠
      (⟨⟨0, []⟩, ⟨1, []⟩, ⟨2, []⟩, ⟨3, []⟩⟩ : StoreState).elements.ref ∧
    (dispatchStep initialVars ⟨⟨0, []⟩, ⟨4, ["e"]⟩, ⟨2, []⟩, ⟨3, []⟩⟩
      SliceName.pages).2 = [(none, ⟨0, []⟩)] := by
  decide

/-- C1 (amended): once the module-level tracker holds a previous state
(`curState = some s`, i.e. at least one dispatch has already been
notified; `s` is then the store state before the current dispatch), a
dispatch whose committed state keeps the reference of the watched slice
never invokes that slice's `subscribeToCrud` callback. -/
theorem c1_no_cross_slice_notification (p : Option StoreState) (s next : StoreState)
    (A : SliceName) (h : (getSlice next A).ref = (getSlice s A).ref) :
    (dispatchStep ⟨p, some s⟩ next A).2 = [] := by
  simp [dispatchStep, h]

/-- C1 witness: concrete second dispatch keeping the `pages` reference
while changing `elements` — the `pages` subscriber is not called. -/
theorem c1_no_cross_slice_notification_witness :
    (dispatchStep ⟨none, some ⟨⟨0, []⟩, ⟨1, []⟩, ⟨2, []⟩, ⟨3, []⟩⟩⟩
      ⟨⟨0, []⟩, ⟨4, ["e"]⟩, ⟨2, []⟩, ⟨3, []⟩⟩ SliceName.pages).2 = [] :=
  c1_no_cross_slice_notification none ⟨⟨0, []⟩, ⟨1, []⟩, ⟨2, []⟩, ⟨3, []⟩⟩
    ⟨⟨0, []⟩, ⟨4, ["e"]⟩, ⟨2, []⟩, ⟨3, []⟩⟩ SliceName.pages (by decide)

/-! ## C2 — exactly-once notification with the pre-mutation snapshot -/

/-- C2 counterexample: on the first committed dispatch after module load
(here: changing `pages` from ref 0 to ref 5), the `pages` subscriber is
invoked with `prev = null`, not with the pre-mutation snapshot
`pages = ⟨0, []⟩` — the claim's `prev` requirement fails on that
dispatch. -/
theorem c2_first_dispatch_prev_null_counterexample :
    (dispatchStep initialVars ⟨⟨5, ["p"]⟩, ⟨1, []⟩, ⟨2, []⟩, ⟨3, []⟩⟩
      SliceName.pages).2 = [(none, ⟨5, ["p"]⟩)] ∧
    (none : Option Slice) ≠ some (⟨⟨0, []⟩, ⟨1, []⟩, ⟨2, []⟩, ⟨3, []⟩⟩ : StoreState).pages := by
  decide

/-- C2 (amended): from the second notified dispatch on, a dispatch that
changes the watched slice's reference invokes the subscriber exactly once,
with `prev` the pre-mutation snapshot (the state committed by the previous
dispatch) and `prev !== next` by reference. Stated over two consecutive
dispatches from a fresh module: the first commits `s1`, the second
commits `s2` with a changed reference for the watched slice. -/
theorem c2_notify_exactly_once_on_change (s1 s2 : StoreState) (A : SliceName)
    (h : (getSlice s2 A).ref ≠ (getSlice s1 A).ref) :
    (dispatchStep ((dispatchStep initialVars s1 A).1) s2 A).2 =
      [(some (getSlice s1 A), getSlice s2 A)] ∧
    (getSlice s1 A).ref ≠ (getSlice s2 A).ref := by
  refine ⟨?_, fun hh => h hh.symm⟩
  simp [dispatchStep, initialVars, h]

/-- C2 witness: concrete pair of dispatches; the second changes the
`pages` reference and fires exactly once with the recorded snapshot. -/
theorem c2_notify_exactly_once_on_change_witness :
    (dispatchStep ((dispatchStep initialVars
        ⟨⟨0, []⟩, ⟨1, []⟩, ⟨2, []⟩, ⟨3, []⟩⟩ SliceName.pages).1)
      ⟨⟨5, ["p"]⟩, ⟨1, []⟩, ⟨2, []⟩, ⟨3, []⟩⟩ SliceName.pages).2 =
      [(some ⟨0, []⟩, ⟨5, ["p"]⟩)] ∧
    (Slice.mk 0 [] : Slice).ref ≠ (Slice.mk 5 ["p"] : Slice).ref :=
  c2_notify_exactly_once_on_change ⟨⟨0, []⟩, ⟨1, []⟩, ⟨2, []⟩, ⟨3, []⟩⟩
    ⟨⟨5, ["p"]⟩, ⟨1, []⟩, ⟨2, []⟩, ⟨3, []⟩⟩ SliceName.pages (by decide)

/-! ## C3 — three-tier backend resolution -/

/-- C3: `getBackend` follows the three-tier resolution order. Tier 1: a
given (truthy) `explicitId` resolves to the first registered backend of
the requested type with that exact id — `undefined` if none — and the
result does not depend on the session (no fall-through). Tier 2: without
an `explicitId`, the first backend of the type whose `isLoggedIn(session)`
is true wins. Tier 3: if none is logged in, the first registered backend
of the type is returned. -/
theorem c3_getBackend_three_tier_resolution :
    (∀ (config : ServerConfig) (session : Session) (type : BackendType) (id : String),
      id ≠ "" →
      getBackend config session type (some id) =
        (getBackends config type).find? (fun b => b.id == id && b.type == type)) ∧
    (∀ (config : ServerConfig) (s1 s2 : Session) (type : BackendType) (id : String),
      id ≠ "" →
      getBackend config s1 type (some id) = getBackend config s2 type (some id)) ∧
    (∀ (config : ServerConfig) (session : Session) (type : BackendType) (b : Backend),
      (getBackends config type).find? (fun b => b.isLoggedIn session) = some b →
      getBackend config session type none = some b) ∧
    (∀ (config : ServerConfig) (session : Session) (type : BackendType),
      (∀ b ∈ getBackends config type, b.isLoggedIn session = false) →
      getBackend config session type none = (getBackends config type).head?) := by
  refine ⟨?_, ?_, ?_, ?_⟩
  · intro config session type id h
    simp [getBackend, jsTruthyStr, h]
  · intro config s1 s2 type id h
    simp [getBackend, jsTruthyStr, h]
  · intro config session type b h
    simp [getBackend, jsTruthyStr, h]
  · intro config session type h
    have hnone : (getBackends config type).find? (fun b => b.isLoggedIn session) = none := by
      rw [List.find?_eq_none]
      intro b hb
      simp [h b hb]
    simp [getBackend, jsTruthyStr, hnone]

/-- C3 witness: two storage backends `a`, `b` registered, none logged in;
resolving with explicit id `"b"` returns backend `"b"`. -/
theorem c3_getBackend_three_tier_resolution_witness :
    getBackend sampleStorageConfig "sess" BackendType.STORAGE (some "b") =
      some (mkBackend "b" BackendType.STORAGE false) := by
  rw [c3_getBackend_three_tier_resolution.1 sampleStorageConfig "sess"
    BackendType.STORAGE "b" (by decide)]
  rfl

/-! ## C4 — HTTP status code mapping -/

/-- Every login-status response is either a 200 success payload or an
error body carrying a message. -/
lemma routeLoginStatus_shape (req : LoginStatusReq) :
    (∃ r, routeLoginStatus req = (200, LoginStatusBody.ok r)) ∨
    (∃ s m, routeLoginStatus req = (s, LoginStatusBody.err m)) := by
  unfold routeLoginStatus
  split
  · right; exact ⟨_, _, rfl⟩
  · split
    · right; exact ⟨_, _, rfl⟩
    · split
      · left; exact ⟨_, rfl⟩
      · right; exact ⟨_, _, rfl⟩

/-- The outer `try` block of the logout route yields either the success
pair, an error pair from the inner catch, or a thrown error. -/
lemma routeLogoutAttempt_shape (req : LogoutReq) :
    routeLogoutAttempt req = Except.ok (200, LogoutBody.ok "OK") ∨
    (∃ s m, routeLogoutAttempt req = Except.ok (s, LogoutBody.err m)) ∨
    (∃ e, routeLogoutAttempt req = Except.error e) := by
  unfold routeLogoutAttempt
  split
  · right; right; exact ⟨_, rfl⟩
  · split
    · right; right; exact ⟨_, rfl⟩
    · split
      · left; rfl
      · right; left; exact ⟨_, _, rfl⟩

/-- Every logout response is either the 200 `'OK'` payload or an error
body carrying a message. -/
lemma routeLogout_shape (req : LogoutReq) :
    routeLogout req = (200, LogoutBody.ok "OK") ∨
    (∃ s m, routeLogout req = (s, LogoutBody.err m)) := by
  rcases routeLogoutAttempt_shape req with h | ⟨s, m, h⟩ | ⟨e, h⟩
  · left; simp [routeLogout, h]
  · right; exact ⟨s, m, by simp [routeLogout, h]⟩
  · right
    exact ⟨e.code.getD 400, "Error in the logout request: " ++ e.message,
      by simp [routeLogout, h]⟩

/-- C4 counterexample: on the logout endpoint, a request whose backend
cannot be resolved (here: empty registry, backend id `"b"`, type
`STORAGE`) is answered with HTTP 400 — not 500 as the claim requires:
the thrown `Error('Backend not found ...')` has no `code` property and
the route's catch-all is `error?.code ?? 400`. -/
theorem c4_logout_backend_not_found_counterexample :
    (routeLogout ⟨some ⟨[]⟩, ⟨some "b", some "STORAGE"⟩, "sess"⟩).1 = 400 ∧
    (400 : Nat) ≠ 500 := by
  constructor
  · rfl
  · decide

/-- C4 (amended): status codes map to error classes as follows — 200 on
success on both routes; 401 when the resolved backend reports the session
not logged in (login-status route); 500 when no backend matches on the
login-status route, while the logout route surfaces a missing backend as
a 400 (its catch-all defaults to 400 for errors without a `code`); 400
whenever a required parameter is missing (both routes); and every non-200
response carries a human-readable message. -/
theorem c4_status_code_mapping :
    (∀ (config : ServerConfig) (q : LoginStatusQuery) (sess : Session) (b : Backend),
      getBackend config sess q.type q.backendId = some b →
      b.isLoggedIn sess = true →
      (routeLoginStatus ⟨some config, some q, some sess⟩).1 = 200) ∧
    (∀ (config : ServerConfig) (q : LoginStatusQuery) (sess : Session) (b : Backend),
      getBackend config sess q.type q.backendId = some b →
      b.isLoggedIn sess = false →
      routeLoginStatus ⟨some config, some q, some sess⟩ =
        (401, LoginStatusBody.err "Not logged in")) ∧
    (∀ (config : ServerConfig) (q : LoginStatusQuery) (sess : Session),
      getBackend config sess q.type q.backendId = none →
      routeLoginStatus ⟨some config, some q, some sess⟩ =
        (500, LoginStatusBody.err "No backend found")) ∧
    (∀ (config : ServerConfig) (q : LoginStatusQuery),
      (routeLoginStatus ⟨some config, some q, none⟩).1 = 400) ∧
    (∀ (config : Option ServerConfig) (ts : Option String) (sess : Session),
      (routeLogout ⟨config, ⟨none, ts⟩, sess⟩).1 = 400) ∧
    (∀ (config : ServerConfig) (sess : Session) (bid ts : String) (type : BackendType),
      toBackendEnum ts = some type →
      getBackend config sess type (some bid) = none →
      (routeLogout ⟨some config, ⟨some bid, some ts⟩, sess⟩).1 = 400) ∧
    (∀ (config : ServerConfig) (sess : Session) (bid ts : String)
      (type : BackendType) (b : Backend),
      toBackendEnum ts = some type →
      getBackend config sess type (some bid) = some b →
      b.logout sess = Except.ok () →
      routeLogout ⟨some config, ⟨some bid, some ts⟩, sess⟩ = (200, LogoutBody.ok "OK")) ∧
    (∀ req : LoginStatusReq, (routeLoginStatus req).1 ≠ 200 →
      ∃ m, (routeLoginStatus req).2 = LoginStatusBody.err m) ∧
    (∀ req : LogoutReq, (routeLogout req).1 ≠ 200 →
      ∃ m, (routeLogout req).2 = LogoutBody.err m) := by
  refine ⟨?_, ?_, ?_, ?_, ?_, ?_, ?_, ?_, ?_⟩
  · intro config q sess b hb hl
    simp [routeLoginStatus, routeLoginStatusChecked, requiredParam, hb, hl]
  · intro config q sess b hb hl
    simp [routeLoginStatus, routeLoginStatusChecked, requiredParam, hb, hl]
  · intro config q sess hb
    simp [routeLoginStatus, routeLoginStatusChecked, requiredParam, hb]
  · intro config q
    rfl
  · intro config ts sess
    rfl
  · intro config sess bid ts type ht hb
    simp [routeLogout, routeLogoutAttempt, routeLogoutChecked, requiredParam,
      resolveLogoutBackend, ht, hb]
  · intro config sess bid ts type b ht hb hlo
    simp [routeLogout, routeLogoutAttempt, routeLogoutChecked, requiredParam,
      resolveLogoutBackend, ht, hb, hlo]
  · intro req h
    rcases routeLoginStatus_shape req with ⟨r, hr⟩ | ⟨s, m, hm⟩
    · rw [hr] at h; exact absurd rfl h
    · rw [hm]; exact ⟨m, rfl⟩
  · intro req h
    rcases routeLogout_shape req with hr | ⟨s, m, hm⟩
    · rw [hr] at h; exact absurd rfl h
    · rw [hm]; exact ⟨m, rfl⟩

/-- C4 witness: a logged-in hosting backend answers the login-status
query with HTTP 200. -/
theorem c4_status_code_mapping_witness :
    (routeLoginStatus ⟨some sampleHostingConfig,
      some ⟨none, some "h", BackendType.HOSTING⟩, some "sess"⟩).1 = 200 :=
  c4_status_code_mapping.1 sampleHostingConfig ⟨none, some "h", BackendType.HOSTING⟩
    "sess" (mkBackend "h" BackendType.HOSTING true) rfl rfl

/-! ## C5 — caller-supplied ids in `create` -/

/-- Any member of a list of strings is at most as long as their
concatenation. -/
lemma mem_length_le_concatIds (i : String) (ids : List String) (h : i ∈ ids) :
    i.length ≤ (concatIds ids).length := by
  induction ids with
  | nil => cases h
  | cons a rest ih =>
    rcases List.mem_cons.mp h with h | h
    · subst h
      simp [concatIds, String.length_append]
    · calc i.length ≤ (concatIds rest).length := ih h
        _ ≤ (concatIds (a :: rest)).length := by
            simp [concatIds, String.length_append]

/-- The generated id is strictly longer than every existing id, hence
fresh. -/
lemma freshId_not_mem (ids : List String) : freshId ids ∉ ids := by
  intro h
  have hle := mem_length_le_concatIds _ _ h
  have hlen : (freshId ids).length = (concatIds ids).length + 1 := by
    simp only [freshId, String.length_append]
    rfl
  omega

/-- C5: `create(entity, allowCallerSuppliedId)` — with the flag false the
caller-supplied id is ignored (the result does not depend on it) and a
fresh id not present in the collection is generated; with the flag true a
duplicate id fails with `DuplicateIdError`; and `store.ts` configures the
flag true for the pages collection and false for the elements
collection. -/
theorem c5_create_id_policy :
    (∀ (col : List Entity) (e : Entity),
      create col e false =
        Except.ok ({ e with id := freshId (col.map Entity.id) },
          col ++ [{ e with id := freshId (col.map Entity.id) }]) ∧
      freshId (col.map Entity.id) ∉ col.map Entity.id) ∧
    (∀ (col : List Entity) (e : Entity) (id1 id2 : String),
      create col { e with id := id1 } false = create col { e with id := id2 } false) ∧
    (∀ (col : List Entity) (e : Entity),
      e.id ∈ col.map Entity.id →
      create col e true = Except.error CrudError.DuplicateIdError) ∧
    (pagesCrudOptions.allowSetId = true ∧ elementsCrudOptions.allowSetId = false) := by
  refine ⟨?_, ?_, ?_, rfl, rfl⟩
  · intro col e
    exact ⟨rfl, freshId_not_mem _⟩
  · intro col e id1 id2
    rfl
  · intro col e h
    simpa [create] using h

/-- C5 witness: creating `{ id: "a", name: "Home" }` in a collection that
already holds id `"a"` with the flag true fails with `DuplicateIdError`;
with the flag false the id is regenerated. -/
theorem c5_create_id_policy_witness :
    create [⟨"a", "Existing"⟩] ⟨"a", "Home"⟩ true =
      Except.error CrudError.DuplicateIdError :=
  c5_create_id_policy.2.2.1 [⟨"a", "Existing"⟩] ⟨"a", "Home"⟩ (by decide)

/-! ## C6 — job polling response shape -/

/-- C6 counterexample: the polling response type is not *exactly*
`{jobId, status, message, url?, logs, errors}` — `PublicationJobData`
(via `JobData`) also carries the optional internal `_timeout` field, so
two responses can agree on all six claimed fields yet differ. -/
theorem c6_timeout_field_counterexample :
    (⟨⟨"j", JobStatus.IN_PROGRESS, "m", none, none⟩, [], []⟩ : PublicationJobData) ≠
      (⟨⟨"j", JobStatus.IN_PROGRESS, "m", none, some 0⟩, [], []⟩ : PublicationJobData) ∧
    (⟨⟨"j", JobStatus.IN_PROGRESS, "m", none, none⟩, [], []⟩ : PublicationJobData).jobId =
      (⟨⟨"j", JobStatus.IN_PROGRESS, "m", none, some 0⟩, [], []⟩ : PublicationJobData).jobId ∧
    (⟨⟨"j", JobStatus.IN_PROGRESS, "m", none, none⟩, [], []⟩ : PublicationJobData).status =
      (⟨⟨"j", JobStatus.IN_PROGRESS, "m", none, some 0⟩, [], []⟩ : PublicationJobData).status ∧
    (⟨⟨"j", JobStatus.IN_PROGRESS, "m", none, none⟩, [], []⟩ : PublicationJobData).message =
      (⟨⟨"j", JobStatus.IN_PROGRESS, "m", none, some 0⟩, [], []⟩ : PublicationJobData).message ∧
    (⟨⟨"j", JobStatus.IN_PROGRESS, "m", none, none⟩, [], []⟩ : PublicationJobData).url =
      (⟨⟨"j", JobStatus.IN_PROGRESS, "m", none, some 0⟩, [], []⟩ : PublicationJobData).url ∧
    (⟨⟨"j", JobStatus.IN_PROGRESS, "m", none, none⟩, [], []⟩ : PublicationJobData).logs =
      (⟨⟨"j", JobStatus.IN_PROGRESS, "m", none, some 0⟩, [], []⟩ : PublicationJobData).logs ∧
    (⟨⟨"j", JobStatus.IN_PROGRESS, "m", none, none⟩, [], []⟩ : PublicationJobData).errors =
      (⟨⟨"j", JobStatus.IN_PROGRESS, "m", none, some 0⟩, [], []⟩ : PublicationJobData).errors := by
  refine ⟨?_, rfl, rfl, rfl, rfl, rfl, rfl⟩
  decide

/-- C6 (amended): the polling response shape is `{jobId, status, message,
url?, logs: [[string]], errors: [[string]]}` plus the optional internal
`_timeout` field (a server-side timer handle): a response value is fully
determined by these seven fields, and `status` ranges over exactly
`{IN_PROGRESS, SUCCESS, ERROR}`. -/
theorem c6_polling_response_shape :
    (∀ a b : PublicationJobData,
      a.jobId = b.jobId → a.status = b.status → a.message = b.message →
      a.url = b.url → a.logs = b.logs → a.errors = b.errors →
      a._timeout = b._timeout → a = b) ∧
    (∀ s : JobStatus,
      s = JobStatus.IN_PROGRESS ∨ s = JobStatus.SUCCESS ∨ s = JobStatus.ERROR) := by
  constructor
  · intro a b h1 h2 h3 h4 h5 h6 h7
    obtain ⟨⟨aj, as1, am, au, at1⟩, al, ae⟩ := a
    obtain ⟨⟨bj, bs, bm, bu, bt⟩, bl, be⟩ := b
    simp_all
  · intro s
    cases s
    · exact Or.inl rfl
    · exact Or.inr (Or.inl rfl)
    · exact Or.inr (Or.inr rfl)

/-- C6 witness: the extensionality part applied at a concrete response. -/
theorem c6_polling_response_shape_witness :
    (⟨⟨"j", JobStatus.SUCCESS, "done", some "https://u", none⟩, [["ok"]], []⟩ :
        PublicationJobData) =
      ⟨⟨"j", JobStatus.SUCCESS, "done", some "https://u", none⟩, [["ok"]], []⟩ :=
  c6_polling_response_shape.1 _ _ rfl rfl rfl rfl rfl rfl rfl

/-! ## C7 — terminal jobs and polling idempotence -/

/-- Orchestrator updates never move a job out of `ERROR`. -/
lemma applyEvents_error_fixed (j : PublicationJobData) (es : List OrchEvent)
    (h : j.status = JobStatus.ERROR) : applyEvents j es = j := by
  induction es with
  | nil => rfl
  | cons e rest ih =>
    have hstep : applyEvent j e = j := by
      simp [applyEvent, jobTerminal, h]
    simp [applyEvents, List.foldl_cons, hstep]
    simpa [applyEvents] using ih

/-- C7: polling returns the job table unchanged; any number of repeated
polls return the same snapshot; a job whose write step fails ends with
status `ERROR` and an error entry from that step; and no sequence of
later orchestrator updates (hence no later poll) ever shows `SUCCESS`
for it — terminal state is monotonic. -/
theorem c7_terminal_job_polling :
    (∀ (jobs : List PublicationJobData) (jobId : String),
      (pollJob jobs jobId).1 = jobs) ∧
    (∀ (jobs : List PublicationJobData) (jobId : String) (n : Nat),
      (pollJob ((fun t => (pollJob t jobId).1)^[n] jobs) jobId).2 =
        (pollJob jobs jobId).2) ∧
    (∀ (j : PublicationJobData) (message : String)
      (publishResult : Except String String),
      j.status = JobStatus.IN_PROGRESS →
      (runPipeline j (Except.error message) publishResult).status = JobStatus.ERROR ∧
      [message] ∈ (runPipeline j (Except.error message) publishResult).errors ∧
      ∀ es : List OrchEvent,
        (applyEvents (runPipeline j (Except.error message) publishResult) es).status ≠
          JobStatus.SUCCESS) ∧
    (∀ (j : PublicationJobData) (es : List OrchEvent),
      j.status = JobStatus.ERROR → applyEvents j es = j) := by
  refine ⟨?_, ?_, ?_, ?_⟩
  · intro jobs jobId
    rfl
  · intro jobs jobId n
    rw [Function.iterate_fixed rfl n]
  · intro j message publishResult h
    have hrun : runPipeline j (Except.error message) publishResult =
        { j with status := JobStatus.ERROR, message := message,
                 errors := j.errors ++ [[message]] } := by
      simp [runPipeline, applyEvent, jobTerminal, h]
    refine ⟨by rw [hrun], by rw [hrun]; simp, ?_⟩
    intro es
    rw [applyEvents_error_fixed _ es (by rw [hrun])]
    rw [hrun]
    simp
  · exact fun j es h => applyEvents_error_fixed j es h

/-- C7 witness: a fresh job whose write step fails ends in `ERROR`, keeps
the step's error entry, and never reaches `SUCCESS`. -/
theorem c7_terminal_job_polling_witness :
    (runPipeline (startJob "job1" "In progress") (Except.error "write failed")
      (Except.ok "https://u")).status = JobStatus.ERROR ∧
    ["write failed"] ∈ (runPipeline (startJob "job1" "In progress")
      (Except.error "write failed") (Except.ok "https://u")).errors ∧
    ∀ es : List OrchEvent,
      (applyEvents (runPipeline (startJob "job1" "In progress")
        (Except.error "write failed") (Except.ok "https://u")) es).status ≠
        JobStatus.SUCCESS :=
  c7_terminal_job_polling.2.2.1 (startJob "job1" "In progress") "write failed"
    (Except.ok "https://u") rfl

/-! ## C8 — job expiry and eviction -/

/-- C8: the expiry deadline is fixed at creation (`now + ttl`); the
spec's concrete scenario — a job created at time `T` with a 60-unit
expiry, polled at `T + 61` — fails with `NotFoundError`; and more
generally, once every entry's deadline has passed, any lookup fails with
`NotFoundError` regardless of job status. -/
theorem c8_job_expiry_eviction :
    (∀ (entries : List JobEntry) (now ttl : Nat) (data : PublicationJobData),
      createJob entries now ttl data = entries ++ [⟨data, now + ttl⟩]) ∧
    (∀ (T : Nat) (data : PublicationJobData),
      getJobAt (createJob [] T 60 data) (T + 61) data.jobId =
        Except.error JobError.NotFoundError) ∧
    (∀ (entries : List JobEntry) (now : Nat) (jobId : String),
      (∀ e ∈ entries, e.expiresAt < now) →
      getJobAt entries now jobId = Except.error JobError.NotFoundError) := by
  refine ⟨fun _ _ _ _ => rfl, ?_, ?_⟩
  · intro T data
    have hlt : ¬ (T + 61 ≤ T + 60) := by omega
    simp [getJobAt, sweepJobs, createJob, hlt]
  · intro entries now jobId h
    have hnil : sweepJobs entries now = [] := by
      rw [sweepJobs, List.filter_eq_nil_iff]
      intro e he
      simpa using Nat.not_le.mpr (h e he)
    simp [getJobAt, hnil]

/-- C8 witness: the general eviction clause at a concrete expired table. -/
theorem c8_job_expiry_eviction_witness :
    getJobAt [⟨startJob "job1" "In progress", 60⟩] 61 "job1" =
      Except.error JobError.NotFoundError :=
  c8_job_expiry_eviction.2.2 [⟨startJob "job1" "In progress", 60⟩] 61 "job1"
    (by decide)

/-! ## C9 — `toBackendData` reads the session only via two operations -/

/-- C9: the backend descriptor builder is insensitive to everything in
the session except the values of `isLoggedIn(session)` and
`getAuthorizeURL(session)`: two sessions agreeing on those two
observations produce identical `BackendData`; and the descriptor consists
exactly of the backend's static fields plus those two session-derived
values. -/
theorem c9_toBackendData_noninterference :
    (∀ (b : Backend) (s1 s2 : Session),
      b.isLoggedIn s1 = b.isLoggedIn s2 →
      b.getAuthorizeURL s1 = b.getAuthorizeURL s2 →
      toBackendData s1 b = toBackendData s2 b) ∧
    (∀ (b : Backend) (s : Session),
      toBackendData s b =
        ⟨b.id, b.type, b.displayName, b.icon, jsDoubleBang b.disableLogout,
          b.isLoggedIn s, b.getAuthorizeURL s⟩) := by
  constructor
  · intro b s1 s2 h1 h2
    simp [toBackendData, h1, h2]
  · intro b s
    rfl

/-- C9 witness: two distinct sessions with equal observations yield the
same descriptor for a concrete backend. -/
theorem c9_toBackendData_noninterference_witness :
    toBackendData "session-one" (mkBackend "a" BackendType.STORAGE true) =
      toBackendData "session-two" (mkBackend "a" BackendType.STORAGE true) :=
  c9_toBackendData_noninterference.1 (mkBackend "a" BackendType.STORAGE true)
    "session-one" "session-two" rfl rfl

/-! ## C10 — `websiteMeta` only for STORAGE with a website id -/

/-- The `websiteMeta` value the login-status route computes (the truthy
value of `websiteId && backend.type === STORAGE && getSiteMeta(...)`). -/
def websiteMetaOf (q : LoginStatusQuery) (session : Session) (b : Backend) :
    Option WebsiteMeta :=
  if jsTruthyStr q.id && (b.type == BackendType.STORAGE) then
    some (b.getSiteMeta session (q.id.getD ""))
  else none

/-- C10: on a 200 login-status response the payload carries the resolved
backend's descriptor and user data, with `websiteMeta` populated only
when the request supplies a (truthy) `websiteId` and the backend type is
`STORAGE`; for a `HOSTING` backend or a request without a `websiteId`,
the response still carries `backend` and `user` but `websiteMeta` is
absent. -/
theorem c10_websiteMeta_storage_only (config : ServerConfig)
    (q : LoginStatusQuery) (sess : Session) (b : Backend)
    (hb : getBackend config sess q.type q.backendId = some b)
    (hl : b.isLoggedIn sess = true) :
    routeLoginStatus ⟨some config, some q, some sess⟩ =
      (200, LoginStatusBody.ok
        ⟨toBackendData sess b, b.getUserData sess, websiteMetaOf q sess b⟩) ∧
    ((websiteMetaOf q sess b).isSome →
      jsTruthyStr q.id = true ∧ b.type = BackendType.STORAGE) ∧
    (b.type = BackendType.HOSTING ∨ q.id = none → websiteMetaOf q sess b = none) := by
  refine ⟨?_, ?_, ?_⟩
  · simp [routeLoginStatus, routeLoginStatusChecked, requiredParam, hb, hl,
      websiteMetaOf]
  · intro h
    by_cases hc : jsTruthyStr q.id = true ∧ b.type = BackendType.STORAGE
    · exact hc
    · exfalso
      rw [websiteMetaOf, if_neg] at h
      · simp at h
      · simpa using hc
  · intro h
    rcases h with h | h
    · rw [websiteMetaOf, if_neg]
      simp [h]
    · rw [websiteMetaOf, if_neg]
      simp [h, jsTruthyStr]

/-- C10 witness: a logged-in HOSTING backend queried with a website id
still yields a 200 response whose `websiteMeta` is absent. -/
theorem c10_websiteMeta_storage_only_witness :
    routeLoginStatus ⟨some sampleHostingConfig,
      some ⟨some "w1", some "h", BackendType.HOSTING⟩, some "sess"⟩ =
      (200, LoginStatusBody.ok
        ⟨toBackendData "sess" (mkBackend "h" BackendType.HOSTING true),
          (mkBackend "h" BackendType.HOSTING true).getUserData "sess",
          websiteMetaOf ⟨some "w1", some "h", BackendType.HOSTING⟩ "sess"
            (mkBackend "h" BackendType.HOSTING true)⟩) ∧
    websiteMetaOf ⟨some "w1", some "h", BackendType.HOSTING⟩ "sess"
      (mkBackend "h" BackendType.HOSTING true) = none := by
  have h := c10_websiteMeta_storage_only sampleHostingConfig
    ⟨some "w1", some "h", BackendType.HOSTING⟩ "sess"
    (mkBackend "h" BackendType.HOSTING true) rfl rfl
  exact ⟨h.1, h.2.2 (Or.inl rfl)⟩
